import Mathlib

/-!
Verification development for the qtutils repository: shallow embedding of
the header-only Qt convenience wrappers (layouts.h, safepointer.h,
singleton.h, translator.h, safeconnect.h) and proofs of the specified
properties.

Pointers to toolkit objects (QWidget*, QLayout*) are modelled as
`Option Nat` (none = nullptr, some id = a non-null pointer identified by
id).  A QString is modelled as `Option String` (none = a null QString,
some s = a non-null string; `some ""` is the empty non-null string, which
Qt distinguishes from the null string via `isNull`).  Calls into the
toolkit are recorded in an explicit trace (`QtCall`) carried by each
layout's state, alongside the resulting item list of box layouts.
-/

namespace QtUtils

/-- QWidget* : none is nullptr. -/
abbrev WidgetPtr := Option Nat

/-- QLayout* : none is nullptr. -/
abbrev LayoutPtr := Option Nat

/-- QString : none is the null string, some s a non-null string. -/
abbrev QStringM := Option String

/-- Margins value object (layouts.h, class Margins). -/
structure Margins where
  left : Int
  top : Int
  right : Int
  bottom : Int
deriving DecidableEq, Repr

/-- `Margins(int value = -1)` with an explicit argument. -/
def Margins.uniform (value : Int) : Margins :=
  ⟨value, value, value, value⟩

/-- `Margins()` : default margins, value -1. -/
def Margins.dflt : Margins := Margins.uniform (-1)

/-- Spacing value object (layouts.h, class Spacing): stores the given
spacing unchanged. -/
structure Spacing where
  m_spacing : Int
deriving DecidableEq, Repr

/-- `Spacing(int spacing)` with an explicit argument. -/
def Spacing.make (spacing : Int) : Spacing := ⟨spacing⟩

/-- `Spacing()` : default argument -1. -/
def Spacing.dflt : Spacing := Spacing.make (-1)

/-- Getter `Spacing::spacing()`. -/
def Spacing.spacing (s : Spacing) : Int := s.m_spacing

/-- Stretch value object (layouts.h, class Stretch): stores the given
stretch unchanged. -/
structure Stretch where
  m_stretch : Int
deriving DecidableEq, Repr

/-- `Stretch(int stretch)` with an explicit argument. -/
def Stretch.make (stretch : Int) : Stretch := ⟨stretch⟩

/-- `Stretch()` : default argument 1. -/
def Stretch.dflt : Stretch := Stretch.make 1

/-- Getter `Stretch::stretch()`. -/
def Stretch.stretch (s : Stretch) : Int := s.m_stretch

/-- Stretched value object (layouts.h, class Stretched). -/
structure Stretched where
  m_widget : WidgetPtr
  m_layout : LayoutPtr
  m_stretch : Int
deriving DecidableEq, Repr

/-- `Stretched(QWidget*, int)` : layout member left nullptr. -/
def Stretched.ofWidget (widget : WidgetPtr) (stretch : Int) : Stretched :=
  ⟨widget, none, stretch⟩

/-- `Stretched(QLayout*, int)` : widget member left nullptr. -/
def Stretched.ofLayout (layout : LayoutPtr) (stretch : Int) : Stretched :=
  ⟨none, layout, stretch⟩

/-- Aligned value object (layouts.h, class Aligned); the Qt::Alignment
flag is modelled as a Nat. -/
structure Aligned where
  m_widget : WidgetPtr
  m_alignment : Nat
  m_stretch : Int
deriving DecidableEq, Repr

/-- `Aligned(QWidget*, Qt::Alignment, int stretch = 0)`. -/
def Aligned.make (widget : WidgetPtr) (alignment : Nat) (stretch : Int) : Aligned :=
  ⟨widget, alignment, stretch⟩

/-- One item held by a QBoxLayout, as produced by the insertion calls the
wrappers make: a widget (with stretch and optional alignment), a child
layout (with stretch), a stretched blank space, or a fixed spacing. -/
inductive BoxItem where
  | widget (id : Nat) (stretch : Int) (alignment : Option Nat)
  | childLayout (id : Nat) (stretch : Int)
  | stretchSpace (stretch : Int)
  | fixedSpace (size : Int)
deriving DecidableEq, Repr

/-- A call made into the toolkit, recorded in order. -/
inductive QtCall where
  | setContentsMargins (m : Margins)
  | setSpacing (v : Int)
  | insertWidget (index : Int) (widget : Nat) (stretch : Int) (alignment : Option Nat)
  | insertLayout (index : Int) (layout : Nat) (stretch : Int)
  | insertStretch (index : Int) (stretch : Int)
  | insertSpacing (index : Int) (size : Int)
  | addRowLabelWidgetField (label field : Nat) (fieldIsLayout : Bool)
  | addRowTextField (text : String) (field : Nat) (fieldIsLayout : Bool)
  | addRowFieldOnly (field : Nat) (fieldIsLayout : Bool)
deriving DecidableEq, Repr

/-- Insert an element at Nat index n (appending when n is past the end),
the behaviour of QBoxLayout insertion at a non-negative index. -/
def listInsertAt {α : Type} (items : List α) (n : Nat) (it : α) : List α :=
  match n, items with
  | 0, _ => it :: items
  | _ + 1, [] => [it]
  | n + 1, x :: xs => x :: listInsertAt xs n it

/-- QBoxLayout insertion semantics: a negative index appends at the end
(Qt documents index -1 as "append"), a non-negative index inserts there. -/
def qtInsert {α : Type} (items : List α) (index : Int) (it : α) : List α :=
  if index < 0 then items ++ [it] else listInsertAt items index.toNat it

/-- State of a Box wrapper together with its underlying QBoxLayout
(layouts.h, classes LayoutWraper, Box, VBox, HBox): the item list of the
layout, its configured margins and spacing, the wrapper's m_reversed
flag, whether the layout is horizontal, and the trace of toolkit calls. -/
structure BoxState where
  items : List BoxItem
  margins : Margins
  spacing : Int
  horizontal : Bool
  m_reversed : Bool
  calls : List QtCall
deriving DecidableEq, Repr

/-- LayoutWraper constructor for a fresh box layout: calls
setContentsMargins and setSpacing with the given values. -/
def mkBoxLayout (horizontal : Bool) (margins : Margins) (spacing : Int) : BoxState :=
  { items := []
    margins := margins
    spacing := spacing
    horizontal := horizontal
    m_reversed := false
    calls := [QtCall.setContentsMargins margins, QtCall.setSpacing spacing] }

/-- `VBox(margins, spacing)` : wraps a new QVBoxLayout. -/
def mkVBox (margins : Margins) (spacing : Int) : BoxState :=
  mkBoxLayout false margins spacing

/-- `HBox(margins, spacing)` : wraps a new QHBoxLayout. -/
def mkHBox (margins : Margins) (spacing : Int) : BoxState :=
  mkBoxLayout true margins spacing

/-- `Box::placement()`: 0 (insert at the first position) when reversed,
-1 (insert at the last position) otherwise. -/
def BoxState.placement (b : BoxState) : Int :=
  if b.m_reversed then 0 else -1

/-- `Box::setReversed(bool)`. -/
def BoxState.setReversed (b : BoxState) (value : Bool) : BoxState :=
  { b with m_reversed := value }

/-- `Box::operator<<(QWidget*)`: a null widget is ignored, a non-null
widget is forwarded to insertWidget at placement() (Qt defaults:
stretch 0, no alignment). -/
def BoxState.addWidget (b : BoxState) (widget : WidgetPtr) : BoxState :=
  match widget with
  | some w =>
      { b with
        items := qtInsert b.items b.placement (BoxItem.widget w 0 none)
        calls := b.calls ++ [QtCall.insertWidget b.placement w 0 none] }
  | none => b

/-- `Box::operator<<(QLayout*)`: a null layout is ignored, a non-null
layout is forwarded to insertLayout at placement() (Qt default stretch 0). -/
def BoxState.addLayout (b : BoxState) (layout : LayoutPtr) : BoxState :=
  match layout with
  | some l =>
      { b with
        items := qtInsert b.items b.placement (BoxItem.childLayout l 0)
        calls := b.calls ++ [QtCall.insertLayout b.placement l 0] }
  | none => b

/-- `Box::operator<<(const Stretch&)`: always calls insertStretch with
the stored stretch value. -/
def BoxState.addStretch (b : BoxState) (st : Stretch) : BoxState :=
  { b with
    items := qtInsert b.items b.placement (BoxItem.stretchSpace st.stretch)
    calls := b.calls ++ [QtCall.insertStretch b.placement st.stretch] }

/-- `Box::operator<<(const Stretched&)`: widget branch first, then
layout branch, else ignored. -/
def BoxState.addStretched (b : BoxState) (s : Stretched) : BoxState :=
  match s.m_widget with
  | some w =>
      { b with
        items := qtInsert b.items b.placement (BoxItem.widget w s.m_stretch none)
        calls := b.calls ++ [QtCall.insertWidget b.placement w s.m_stretch none] }
  | none =>
      match s.m_layout with
      | some l =>
          { b with
            items := qtInsert b.items b.placement (BoxItem.childLayout l s.m_stretch)
            calls := b.calls ++ [QtCall.insertLayout b.placement l s.m_stretch] }
      | none => b

/-- `Box::operator<<(const Aligned&)`: only a non-null widget is
forwarded, with its stretch and alignment. -/
def BoxState.addAligned (b : BoxState) (a : Aligned) : BoxState :=
  match a.m_widget with
  | some w =>
      { b with
        items := qtInsert b.items b.placement (BoxItem.widget w a.m_stretch (some a.m_alignment))
        calls := b.calls ++ [QtCall.insertWidget b.placement w a.m_stretch (some a.m_alignment)] }
  | none => b

/-- `Box::operator<<(int spacing)`: inserts a fixed spacing only when the
value is positive, otherwise does nothing. -/
def BoxState.addSpacingInt (b : BoxState) (spacing : Int) : BoxState :=
  if spacing > 0 then
    { b with
      items := qtInsert b.items b.placement (BoxItem.fixedSpace spacing)
      calls := b.calls ++ [QtCall.insertSpacing b.placement spacing] }
  else b

/-- Repeated `<<` of widgets, left to right. -/
def BoxState.addWidgets (b : BoxState) (ws : List WidgetPtr) : BoxState :=
  ws.foldl BoxState.addWidget b

/-- Qt's interpretation of a stored layout spacing: a negative value
means "use the style's default spacing" (QLayout::setSpacing documents
-1 / negative as default), a non-negative value is used literally. -/
def effectiveSpacing (v : Int) : Option Int :=
  if v < 0 then none else some v

/-- Row value object (layouts.h, class Row): label widget, label text,
field widget, field layout; unset members are nullptr / null string. -/
structure Row where
  m_label : WidgetPtr
  m_labelText : QStringM
  m_widget : WidgetPtr
  m_layout : LayoutPtr
deriving DecidableEq, Repr

/-- `Row(QWidget *label, QWidget *widget)`. -/
def Row.ofLabelWidget (label : WidgetPtr) (widget : WidgetPtr) : Row :=
  ⟨label, none, widget, none⟩

/-- `Row(const QString &labelText, QWidget *widget)`: the text is stored
as given (it may be the null string). -/
def Row.ofTextWidget (labelText : QStringM) (widget : WidgetPtr) : Row :=
  ⟨none, labelText, widget, none⟩

/-- `Row(QWidget *label, QLayout *layout)`. -/
def Row.ofLabelLayout (label : WidgetPtr) (layout : LayoutPtr) : Row :=
  ⟨label, none, none, layout⟩

/-- `Row(const QString &labelText, QLayout *layout)`: a null label text
is converted to the empty (non-null) string, so that Form's << uses the
label-text addRow overload. -/
def Row.ofTextLayout (labelText : QStringM) (layout : LayoutPtr) : Row :=
  let t : QStringM :=
    match labelText with
    | none => some ""
    | some s => some s
  ⟨none, t, none, layout⟩

/-- `Row(QWidget *widget)`. -/
def Row.ofWidget (widget : WidgetPtr) : Row :=
  ⟨none, none, widget, none⟩

/-- `Row(QLayout *layout)`. -/
def Row.ofLayout (layout : LayoutPtr) : Row :=
  ⟨none, none, none, layout⟩

/-- State of a Form wrapper with its underlying QFormLayout; the rows the
layout holds are exactly the addRow* entries of the call trace, in order
(QFormLayout::addRow always appends). -/
structure FormState where
  margins : Margins
  spacing : Int
  calls : List QtCall
deriving DecidableEq, Repr

/-- `Form(margins, spacing)` : wraps a new QFormLayout, configuring
margins and spacing like every LayoutWraper. -/
def mkForm (margins : Margins) (spacing : Int) : FormState :=
  { margins := margins
    spacing := spacing
    calls := [QtCall.setContentsMargins margins, QtCall.setSpacing spacing] }

/-- `Form::operator<<(const Row&)`: widget field first, else layout
field, else ignored; within each, label widget first, else non-null
label text, else the field-only spanning overload. -/
def FormState.addRow (f : FormState) (row : Row) : FormState :=
  match row.m_widget with
  | some w =>
      match row.m_label with
      | some l => { f with calls := f.calls ++ [QtCall.addRowLabelWidgetField l w false] }
      | none =>
          match row.m_labelText with
          | some t => { f with calls := f.calls ++ [QtCall.addRowTextField t w false] }
          | none => { f with calls := f.calls ++ [QtCall.addRowFieldOnly w false] }
  | none =>
      match row.m_layout with
      | some l2 =>
          match row.m_label with
          | some l => { f with calls := f.calls ++ [QtCall.addRowLabelWidgetField l l2 true] }
          | none =>
              match row.m_labelText with
              | some t => { f with calls := f.calls ++ [QtCall.addRowTextField t l2 true] }
              | none => { f with calls := f.calls ++ [QtCall.addRowFieldOnly l2 true] }
      | none => f

/-! ## SafePointer (safepointer.h)

A world of QObject heap objects: `alive` holds the ids of currently
allocated objects, `doubleDeletes` counts deletes of an already-deleted
object (C++ undefined behaviour; it must stay 0).  A SafePointer extends
QPointer, Qt's weak reference: dereferencing it (the implicit conversion
to T*) yields nullptr once the pointee has been destroyed. -/

/-- The heap of toolkit objects. -/
structure World where
  alive : Finset Nat
  doubleDeletes : Nat

/-- Dereferencing a QPointer: the stored target, auto-nullified when the
target object is no longer alive. -/
def qpointerDeref (w : World) (sp : Option Nat) : Option Nat :=
  match sp with
  | some id => if id ∈ w.alive then some id else none
  | none => none

/-- `delete p` on a raw pointer: nullptr is a no-op; deleting an alive
object removes it from the heap; deleting a dead object is a double
delete. -/
def rawDelete (w : World) (p : Option Nat) : World :=
  match p with
  | none => w
  | some id =>
      if id ∈ w.alive then { w with alive := w.alive.erase id }
      else { w with doubleDeletes := w.doubleDeletes + 1 }

/-- `SafePointer::operator=(T *obj)`: `delete *this` (deleting the result
of the QPointer conversion), then store the new raw pointer. -/
def spAssign (w : World) (sp : Option Nat) (obj : Option Nat) : World × Option Nat :=
  (rawDelete w (qpointerDeref w sp), obj)

/-- `SafePointer::~SafePointer()`: `delete *this`. -/
def spDestroy (w : World) (sp : Option Nat) : World :=
  rawDelete w (qpointerDeref w sp)

/-- `SafePointer::reset()`: `delete *this` (pointer value itself then
auto-nullifies since the pointee is gone). -/
def spReset (w : World) (sp : Option Nat) : World :=
  rawDelete w (qpointerDeref w sp)

/-- Some other owner deletes the object with the given id. -/
def externalDelete (w : World) (id : Nat) : World :=
  rawDelete w (some id)

/-! ## Singleton (singleton.h) and Translator (translator.h) -/

/-- Result of running a constructor that contains a debug assertion:
the new static instance pointer and whether the assertion held
(assertOk = false means the debug-mode assertion fired). -/
structure CtorOutcome where
  s_instance : Option Nat
  assertOk : Bool
deriving DecidableEq, Repr

/-- `Singleton::Singleton()`: asserts s_instance == nullptr, then stores
this. -/
def Singleton.construct (st : Option Nat) (self : Nat) : CtorOutcome :=
  { s_instance := some self, assertOk := st.isNone }

/-- `Singleton::~Singleton()`: clears s_instance unconditionally. -/
def Singleton.destruct (st : Option Nat) : Option Nat :=
  match st with
  | _ => none

/-- `Singleton::instance()`: returns the static pointer. -/
def Singleton.instancePtr (st : Option Nat) : Option Nat := st

/-- `Translator::Translator()`: asserts s_instance == nullptr and stores
this (it additionally asserts qApp != nullptr and installs an event
filter on qApp, modelled by the second assertion flag and the returned
filter installation). -/
def Translator.construct (st : Option Nat) (self : Nat) (qAppPtr : Option Nat) :
    CtorOutcome × Bool × Option (Nat × Nat) :=
  ({ s_instance := some self, assertOk := st.isNone },
   qAppPtr.isSome,
   qAppPtr.map (fun a => (a, self)))

/-- `Translator::~Translator()`: clears s_instance unconditionally. -/
def Translator.destruct (st : Option Nat) : Option Nat :=
  match st with
  | _ => none

/-- `Translator::instance()`. -/
def Translator.instancePtr (st : Option Nat) : Option Nat := st

/-- Qt event types relevant to the Translator's event filter. -/
inductive QEventType where
  | languageChange
  | other (code : Nat)
deriving DecidableEq, Repr

/-- What an eventFilter invocation produced: whether languageChanged was
emitted, and the filter's return value (true would consume the event and
stop its delivery). -/
structure EventFilterResult where
  emittedLanguageChanged : Bool
  consumed : Bool
deriving DecidableEq, Repr

/-- `Translator::eventFilter(QObject *watched, QEvent *event)`: emits
languageChanged when watched is qApp and the event is a LanguageChange
event, and always returns false. -/
def Translator.eventFilter (qAppPtr : Nat) (watched : Nat) (eventType : QEventType) :
    EventFilterResult :=
  { emittedLanguageChanged :=
      decide (watched = qAppPtr ∧ eventType = QEventType.languageChange)
    consumed := false }

/-! ## safeConnect / safeDisconnect (safeconnect.h)

The toolkit's connection table is a list of
(sender, signal, receiver, slot) tuples.  QObject::connect fails
(returns false) on a null sender or receiver, and, when called with the
Qt::UniqueConnection flag, on a duplicate of an existing connection.
QObject::disconnect removes the matching connections and reports whether
any existed. -/

/-- A signal/slot connection: (sender, signal, receiver, slot). -/
abbrev Conn := Nat × Nat × Nat × Nat

/-- `QObject::connect(sender, signal, receiver, slot, type)` with an
optional Qt::UniqueConnection flag. -/
def qtConnect (conns : List Conn) (sender : Option Nat) (signal : Nat)
    (receiver : Option Nat) (slot : Nat) (uniqueFlag : Bool) : List Conn × Bool :=
  match sender, receiver with
  | some s, some r =>
      let c : Conn := (s, signal, r, slot)
      if uniqueFlag ∧ c ∈ conns then (conns, false)
      else (conns ++ [c], true)
  | _, _ => (conns, false)

/-- `QObject::disconnect(sender, signal, receiver, slot)`. -/
def qtDisconnect (conns : List Conn) (sender : Option Nat) (signal : Nat)
    (receiver : Option Nat) (slot : Nat) : List Conn × Bool :=
  match sender, receiver with
  | some s, some r =>
      let c : Conn := (s, signal, r, slot)
      if c ∈ conns then (conns.filter (fun x => x ≠ c), true)
      else (conns, false)
  | _, _ => (conns, false)

/-- Whether the program was compiled in debug mode (Q_ASSERT active) or
release mode (Q_ASSERT compiles away). -/
inductive BuildMode where
  | debug
  | release
deriving DecidableEq, Repr

/-- Result of a safeConnect / safeDisconnect call: the new connection
table and whether a Q_ASSERT fired.  The function returns void: no error
is reported or propagated beyond the assertion. -/
structure SafeCallOutcome where
  conns : List Conn
  assertionFailed : Bool
deriving DecidableEq, Repr

/-- `safeConnect(sender, signal, receiver, slot)`: calls
QObject::connect with Qt::UniqueConnection and Q_ASSERTs the returned
success flag (debug builds only). -/
def safeConnect (mode : BuildMode) (conns : List Conn) (sender : Option Nat)
    (signal : Nat) (receiver : Option Nat) (slot : Nat) : SafeCallOutcome :=
  let r := qtConnect conns sender signal receiver slot true
  { conns := r.1
    assertionFailed :=
      match mode with
      | BuildMode.debug => !r.2
      | BuildMode.release => false }

/-- `safeDisconnect(sender, signal, receiver, slot)`: calls
QObject::disconnect and Q_ASSERTs the returned success flag (debug
builds only). -/
def safeDisconnect (mode : BuildMode) (conns : List Conn) (sender : Option Nat)
    (signal : Nat) (receiver : Option Nat) (slot : Nat) : SafeCallOutcome :=
  let r := qtDisconnect conns sender signal receiver slot
  { conns := r.1
    assertionFailed :=
      match mode with
      | BuildMode.debug => !r.2
      | BuildMode.release => false }

/-! ## Shared helper lemmas -/

/-- A QPointer dereferences to some id only when that id is alive and is
the stored target. -/
theorem qpointerDeref_eq_some {w : World} {sp : Option Nat} {id : Nat}
    (h : qpointerDeref w sp = some id) : id ∈ w.alive ∧ sp = some id := by
  cases sp with
  | none => simp [qpointerDeref] at h
  | some j =>
      by_cases hj : j ∈ w.alive
      · simp [qpointerDeref, hj] at h
        exact ⟨h ▸ hj, h ▸ rfl⟩
      · simp [qpointerDeref, hj] at h

/-- Deleting an alive object removes it and counts no double delete. -/
theorem rawDelete_alive {w : World} {id : Nat} (h : id ∈ w.alive) :
    rawDelete w (some id) = { w with alive := w.alive.erase id } := by
  simp [rawDelete, h]

/-- Appending a widget leaves the m_reversed flag unchanged. -/
theorem addWidget_m_reversed (b : BoxState) (w : WidgetPtr) :
    (b.addWidget w).m_reversed = b.m_reversed := by
  cases w <;> rfl

/-- In a non-reversed box, a non-null widget is appended at the end. -/
theorem addWidget_items_of_not_reversed {b : BoxState} (h : b.m_reversed = false)
    (w : Nat) :
    (b.addWidget (some w)).items = b.items ++ [BoxItem.widget w 0 none] := by
  simp [BoxState.addWidget, qtInsert, BoxState.placement, h]

/-- Unfolding of addWidgets over a cons. -/
theorem addWidgets_cons (b : BoxState) (x : WidgetPtr) (xs : List WidgetPtr) :
    b.addWidgets (x :: xs) = (b.addWidget x).addWidgets xs := rfl

/-! ## Claims -/

/-- C1: appending a null widget or a null child layout through a box
builder's << leaves the underlying box layout unchanged (no toolkit
insertion call is recorded); appending a Row with neither a widget nor a
layout leaves the form layout unchanged; every non-null widget/layout is
forwarded to the corresponding toolkit insertion call. -/
theorem c1_null_children_ignored :
    (∀ b : BoxState, b.addWidget none = b) ∧
    (∀ b : BoxState, b.addLayout none = b) ∧
    (∀ (f : FormState) (row : Row), row.m_widget = none → row.m_layout = none →
      f.addRow row = f) ∧
    (∀ (b : BoxState) (w : Nat),
      (b.addWidget (some w)).calls = b.calls ++ [QtCall.insertWidget b.placement w 0 none]) ∧
    (∀ (b : BoxState) (l : Nat),
      (b.addLayout (some l)).calls = b.calls ++ [QtCall.insertLayout b.placement l 0]) := by
  refine ⟨fun b => rfl, fun b => rfl, ?_, fun b w => rfl, fun b l => rfl⟩
  intro f row hw hl
  simp [FormState.addRow, hw, hl]

/-- C1 witness: concrete instances of the null-ignoring behaviour. -/
theorem c1_null_children_ignored_witness :
    ((mkVBox Margins.dflt (-1)).addWidget none = mkVBox Margins.dflt (-1)) ∧
    (mkForm Margins.dflt (-1)).addRow (Row.ofWidget none) = mkForm Margins.dflt (-1) :=
  ⟨c1_null_children_ignored.1 _,
   c1_null_children_ignored.2.2.1 _ (Row.ofWidget none) rfl rfl⟩

/-- C2: a SafePointer's assignment and destructor delete the currently
owned object when there is one; an external delete auto-nullifies the
pointer; and no SafePointer operation ever performs a double delete (the
doubleDeletes counter never moves). -/
theorem c2_safepointer_no_double_delete :
    (∀ (w : World) (sp obj : Option Nat) (id : Nat), qpointerDeref w sp = some id →
      id ∉ (spAssign w sp obj).1.alive) ∧
    (∀ (w : World) (sp : Option Nat) (id : Nat), qpointerDeref w sp = some id →
      id ∉ (spDestroy w sp).alive) ∧
    (∀ (w : World) (id : Nat), qpointerDeref (externalDelete w id) (some id) = none) ∧
    (∀ (w : World) (sp obj : Option Nat),
      (spAssign w sp obj).1.doubleDeletes = w.doubleDeletes) ∧
    (∀ (w : World) (sp : Option Nat), (spDestroy w sp).doubleDeletes = w.doubleDeletes) := by
  have hdel : ∀ (w : World) (sp : Option Nat) (id : Nat), qpointerDeref w sp = some id →
      id ∉ (rawDelete w (qpointerDeref w sp)).alive := by
    intro w sp id h
    obtain ⟨hmem, -⟩ := qpointerDeref_eq_some h
    rw [h, rawDelete_alive hmem]
    exact Finset.not_mem_erase id w.alive
  have hdd : ∀ (w : World) (sp : Option Nat),
      (rawDelete w (qpointerDeref w sp)).doubleDeletes = w.doubleDeletes := by
    intro w sp
    cases hq : qpointerDeref w sp with
    | none => simp [rawDelete]
    | some id =>
        obtain ⟨hmem, -⟩ := qpointerDeref_eq_some hq
        rw [rawDelete_alive hmem]
  refine ⟨fun w sp obj id h => hdel w sp id h, fun w sp id h => hdel w sp id h, ?_,
    fun w sp obj => hdd w sp, fun w sp => hdd w sp⟩
  intro w id
  by_cases h : id ∈ w.alive
  · simp [externalDelete, rawDelete_alive h, qpointerDeref]
  · simp [externalDelete, rawDelete, h, qpointerDeref]

/-- C2 witness: in a world where object 5 is alive and owned, destroying
the SafePointer removes it, the counter stays 0, and an external delete
nullifies the pointer. -/
theorem c2_safepointer_no_double_delete_witness :
    (5 ∉ (spDestroy ⟨{5, 8}, 0⟩ (some 5)).alive) ∧
    (spDestroy ⟨{5, 8}, 0⟩ (some 5)).doubleDeletes = 0 ∧
    qpointerDeref (externalDelete ⟨{5, 8}, 0⟩ 5) (some 5) = none :=
  ⟨c2_safepointer_no_double_delete.2.1 ⟨{5, 8}, 0⟩ (some 5) 5 (by decide),
   c2_safepointer_no_double_delete.2.2.2.2 ⟨{5, 8}, 0⟩ (some 5),
   c2_safepointer_no_double_delete.2.2.1 ⟨{5, 8}, 0⟩ 5⟩

/-- C3 counterexample: on a box builder with setReversed(true), two
widgets appended via << end up in the layout in the opposite of the
order in which they were appended, so the claim that every << insertion
is at the last position and order is always preserved is false. -/
theorem c3_counterexample :
    (((mkVBox Margins.dflt (-1)).setReversed true).addWidgets [some 1, some 2]).items =
      [BoxItem.widget 2 0 none, BoxItem.widget 1 0 none] ∧
    [BoxItem.widget 2 0 none, BoxItem.widget 1 0 none] ≠
      [BoxItem.widget 1 0 none, BoxItem.widget 2 0 none] := by
  exact ⟨rfl, by decide⟩

/-- C3 amended: for a box builder on which setReversed(true) has not
been called (m_reversed is false, the default), every child appended via
repeated << calls is inserted at the last position, so the non-null
children end up in the layout in the order in which they were appended. -/
theorem c3_order_preserved (b : BoxState) (h : b.m_reversed = false)
    (ws : List WidgetPtr) :
    (b.addWidgets ws).items =
      b.items ++ ws.filterMap (fun w => w.map (fun n => BoxItem.widget n 0 none)) := by
  induction ws generalizing b with
  | nil => simp [BoxState.addWidgets]
  | cons x xs ih =>
      rw [addWidgets_cons]
      cases x with
      | none =>
          have hb : b.addWidget none = b := rfl
          rw [hb, ih b h]
          simp
      | some w =>
          have hb : (b.addWidget (some w)).m_reversed = false := by
            rw [addWidget_m_reversed]; exact h
          rw [ih _ hb, addWidget_items_of_not_reversed h w]
          simp

/-- C3 amended witness: a concrete non-reversed box preserves order. -/
theorem c3_order_preserved_witness :
    ((mkVBox Margins.dflt (-1)).addWidgets [some 3, none, some 4]).items =
      (mkVBox Margins.dflt (-1)).items ++
        ([some 3, none, some 4].filterMap
          (fun w => w.map (fun n => BoxItem.widget n 0 none))) :=
  c3_order_preserved _ rfl _

/-- C4 counterexample: a Stretch with value -5 (below the sentinel -1)
appended through << is forwarded literally to the toolkit's
insertStretch call; the recorded call carries -5, not the toolkit's
default stretch 0, so below-sentinel stretch values are not treated as
"use default". -/
theorem c4_counterexample :
    ((mkVBox Margins.dflt (-1)).addStretch (Stretch.make (-5))).calls =
      [QtCall.setContentsMargins Margins.dflt, QtCall.setSpacing (-1),
       QtCall.insertStretch (-1) (-5)] ∧
    (-5 : Int) < -1 ∧
    QtCall.insertStretch (-1) (-5) ≠ QtCall.insertStretch (-1) 0 :=
  ⟨rfl, by decide, by decide⟩

/-- C4 amended: a negative spacing given to a builder constructor leaves
the layout's effective spacing at the toolkit default (Qt interprets a
negative stored spacing as "use default"); a fixed spacing appended via
<< that is not positive results in no insertion call at all; a stretch
value appended via << is forwarded literally to insertStretch with no
sentinel interpretation. -/
theorem c4_sentinel_handling :
    (∀ (m : Margins) (v : Int), v < 0 → effectiveSpacing (mkVBox m v).spacing = none) ∧
    (∀ (m : Margins) (v : Int), v < 0 → effectiveSpacing (mkHBox m v).spacing = none) ∧
    (∀ (m : Margins) (v : Int), v < 0 → effectiveSpacing (mkForm m v).spacing = none) ∧
    (∀ (b : BoxState) (sp : Int), sp ≤ 0 → b.addSpacingInt sp = b) ∧
    (∀ (b : BoxState) (st : Int),
      (b.addStretch (Stretch.make st)).calls =
        b.calls ++ [QtCall.insertStretch b.placement st]) := by
  refine ⟨?_, ?_, ?_, ?_, fun b st => rfl⟩
  · intro m v h
    simp [effectiveSpacing, mkVBox, mkBoxLayout, h]
  · intro m v h
    simp [effectiveSpacing, mkHBox, mkBoxLayout, h]
  · intro m v h
    simp [effectiveSpacing, mkForm, h]
  · intro b sp h
    simp [BoxState.addSpacingInt, not_lt.mpr h]

/-- C4 amended witness: concrete instances at spacing -2 and 0. -/
theorem c4_sentinel_handling_witness :
    effectiveSpacing (mkVBox Margins.dflt (-2)).spacing = none ∧
    (mkVBox Margins.dflt (-1)).addSpacingInt 0 = mkVBox Margins.dflt (-1) :=
  ⟨c4_sentinel_handling.1 Margins.dflt (-2) (by decide),
   c4_sentinel_handling.2.2.2.1 (mkVBox Margins.dflt (-1)) 0 (by decide)⟩

/-- C5: after constructing a Singleton (or Translator), instance()
returns the newly constructed object; after destruction it returns
nullptr; constructing a second instance while one exists makes the
debug-mode assertion fail. -/
theorem c5_singleton_lifecycle :
    (∀ (st : Option Nat) (self : Nat),
      Singleton.instancePtr (Singleton.construct st self).s_instance = some self) ∧
    (∀ st : Option Nat, Singleton.instancePtr (Singleton.destruct st) = none) ∧
    (∀ (st : Option Nat) (self : Nat), st ≠ none →
      (Singleton.construct st self).assertOk = false) ∧
    (∀ (st : Option Nat) (self : Nat) (qAppPtr : Option Nat),
      Translator.instancePtr (Translator.construct st self qAppPtr).1.s_instance = some self) ∧
    (∀ st : Option Nat, Translator.instancePtr (Translator.destruct st) = none) ∧
    (∀ (st : Option Nat) (self : Nat) (qAppPtr : Option Nat), st ≠ none →
      (Translator.construct st self qAppPtr).1.assertOk = false) := by
  refine ⟨fun st self => rfl, fun st => rfl, ?_, fun st self q => rfl, fun st => rfl, ?_⟩
  · intro st self h
    cases st with
    | none => exact absurd rfl h
    | some x => rfl
  · intro st self q h
    cases st with
    | none => exact absurd rfl h
    | some x => rfl

/-- C5 witness: concrete lifecycle steps for instance pointer 7. -/
theorem c5_singleton_lifecycle_witness :
    Singleton.instancePtr (Singleton.construct none 7).s_instance = some 7 ∧
    Singleton.instancePtr (Singleton.destruct (some 7)) = none ∧
    (Singleton.construct (some 7) 9).assertOk = false ∧
    (Translator.construct (some 7) 9 (some 1)).1.assertOk = false :=
  ⟨c5_singleton_lifecycle.1 none 7,
   c5_singleton_lifecycle.2.1 (some 7),
   c5_singleton_lifecycle.2.2.1 (some 7) 9 (by decide),
   c5_singleton_lifecycle.2.2.2.2.2 (some 7) 9 (some 1) (by decide)⟩

/-- C6: safeConnect always attempts the connection via QObject::connect
with the Qt::UniqueConnection flag; in debug builds its assertion fails
exactly when the connect call failed (in particular on a duplicate
connection), in release builds the assertion never fails; safeDisconnect
behaves analogously for disconnection; neither reports or propagates any
error beyond the assertion (the resulting connection table is exactly
the toolkit call's result in every mode). -/
theorem c6_safeconnect_assertions :
    (∀ (conns : List Conn) (sender : Option Nat) (signal : Nat) (receiver : Option Nat)
      (slot : Nat),
      (safeConnect BuildMode.release conns sender signal receiver slot).assertionFailed =
        false) ∧
    (∀ (conns : List Conn) (sender : Option Nat) (signal : Nat) (receiver : Option Nat)
      (slot : Nat),
      (safeDisconnect BuildMode.release conns sender signal receiver slot).assertionFailed =
        false) ∧
    (∀ (mode : BuildMode) (conns : List Conn) (sender : Option Nat) (signal : Nat)
      (receiver : Option Nat) (slot : Nat),
      (safeConnect mode conns sender signal receiver slot).conns =
        (qtConnect conns sender signal receiver slot true).1) ∧
    (∀ (conns : List Conn) (sender : Option Nat) (signal : Nat) (receiver : Option Nat)
      (slot : Nat),
      ((safeConnect BuildMode.debug conns sender signal receiver slot).assertionFailed =
        true ↔ (qtConnect conns sender signal receiver slot true).2 = false)) ∧
    (∀ (conns : List Conn) (s : Nat) (signal : Nat) (r : Nat) (slot : Nat),
      (s, signal, r, slot) ∈ conns →
      (safeConnect BuildMode.debug conns (some s) signal (some r) slot).assertionFailed =
        true) ∧
    (∀ (mode : BuildMode) (conns : List Conn) (sender : Option Nat) (signal : Nat)
      (receiver : Option Nat) (slot : Nat),
      (safeDisconnect mode conns sender signal receiver slot).conns =
        (qtDisconnect conns sender signal receiver slot).1) ∧
    (∀ (conns : List Conn) (sender : Option Nat) (signal : Nat) (receiver : Option Nat)
      (slot : Nat),
      ((safeDisconnect BuildMode.debug conns sender signal receiver slot).assertionFailed =
        true ↔ (qtDisconnect conns sender signal receiver slot).2 = false)) := by
  refine ⟨fun conns sender signal receiver slot => rfl,
    fun conns sender signal receiver slot => rfl,
    fun mode conns sender signal receiver slot => by cases mode <;> rfl,
    fun conns sender signal receiver slot => by
      simp [safeConnect],
    ?_,
    fun mode conns sender signal receiver slot => by cases mode <;> rfl,
    fun conns sender signal receiver slot => by
      simp [safeDisconnect]⟩
  intro conns s signal r slot h
  simp [safeConnect, qtConnect, h]

/-- C6 witness: the debug-mode assertion fails on a duplicate
connection, and release mode never asserts on the same input. -/
theorem c6_safeconnect_assertions_witness :
    (safeConnect BuildMode.debug [(1, 2, 3, 4)] (some 1) 2 (some 3) 4).assertionFailed =
      true ∧
    (safeConnect BuildMode.release [(1, 2, 3, 4)] (some 1) 2 (some 3) 4).assertionFailed =
      false :=
  ⟨c6_safeconnect_assertions.2.2.2.2.1 [(1, 2, 3, 4)] 1 2 3 4 (by decide),
   c6_safeconnect_assertions.1 [(1, 2, 3, 4)] (some 1) 2 (some 3) 4⟩

/-- C7: Form's << selects the toolkit addRow overload by priority label
widget, then non-null label text, then field-only, both when the field
is a widget and when it is a layout. -/
theorem c7_form_overload_priority :
    (∀ (f : FormState) (row : Row) (w l : Nat), row.m_widget = some w →
      row.m_label = some l →
      (f.addRow row).calls = f.calls ++ [QtCall.addRowLabelWidgetField l w false]) ∧
    (∀ (f : FormState) (row : Row) (w : Nat) (t : String), row.m_widget = some w →
      row.m_label = none → row.m_labelText = some t →
      (f.addRow row).calls = f.calls ++ [QtCall.addRowTextField t w false]) ∧
    (∀ (f : FormState) (row : Row) (w : Nat), row.m_widget = some w →
      row.m_label = none → row.m_labelText = none →
      (f.addRow row).calls = f.calls ++ [QtCall.addRowFieldOnly w false]) ∧
    (∀ (f : FormState) (row : Row) (l2 l : Nat), row.m_widget = none →
      row.m_layout = some l2 → row.m_label = some l →
      (f.addRow row).calls = f.calls ++ [QtCall.addRowLabelWidgetField l l2 true]) ∧
    (∀ (f : FormState) (row : Row) (l2 : Nat) (t : String), row.m_widget = none →
      row.m_layout = some l2 → row.m_label = none → row.m_labelText = some t →
      (f.addRow row).calls = f.calls ++ [QtCall.addRowTextField t l2 true]) ∧
    (∀ (f : FormState) (row : Row) (l2 : Nat), row.m_widget = none →
      row.m_layout = some l2 → row.m_label = none → row.m_labelText = none →
      (f.addRow row).calls = f.calls ++ [QtCall.addRowFieldOnly l2 true]) := by
  refine ⟨?_, ?_, ?_, ?_, ?_, ?_⟩
  · intro f row w l hw hl
    simp [FormState.addRow, hw, hl]
  · intro f row w t hw hl ht
    simp [FormState.addRow, hw, hl, ht]
  · intro f row w hw hl ht
    simp [FormState.addRow, hw, hl, ht]
  · intro f row l2 l hw hl2 hl
    simp [FormState.addRow, hw, hl2, hl]
  · intro f row l2 t hw hl2 hl ht
    simp [FormState.addRow, hw, hl2, hl, ht]
  · intro f row l2 hw hl2 hl ht
    simp [FormState.addRow, hw, hl2, hl, ht]

/-- C7 witness: a Row with a label widget and a field widget uses the
(label widget, field) overload on a concrete form. -/
theorem c7_form_overload_priority_witness :
    ((mkForm Margins.dflt (-1)).addRow (Row.ofLabelWidget (some 1) (some 2))).calls =
      (mkForm Margins.dflt (-1)).calls ++ [QtCall.addRowLabelWidgetField 1 2 false] :=
  c7_form_overload_priority.1 (mkForm Margins.dflt (-1))
    (Row.ofLabelWidget (some 1) (some 2)) 2 1 rfl rfl

/-- C8 counterexample: the default-constructed Spacing carries the
sentinel -1, a negative value, so Spacing and Stretch value objects do
not maintain a non-negativity invariant. -/
theorem c8_counterexample :
    Spacing.dflt.spacing = -1 ∧ Spacing.dflt.spacing < 0 ∧
    (Stretch.make (-2)).stretch < 0 := by decide

/-- C8 amended: the Spacing and Stretch constructors store their
argument unchanged (defaults -1 and 1 respectively); negative values are
representable and no non-negativity invariant is enforced. -/
theorem c8_values_stored_unchanged :
    (∀ v : Int, (Spacing.make v).spacing = v) ∧
    (∀ v : Int, (Stretch.make v).stretch = v) ∧
    Spacing.dflt.spacing = -1 ∧ Stretch.dflt.stretch = 1 :=
  ⟨fun _ => rfl, fun _ => rfl, rfl, rfl⟩

/-- C9: the Row constructor taking a label text and a layout converts a
null QString to the empty string, so appending such a Row (with a
non-null layout) always records the label-text addRow overload, never
the no-label spanning overload. -/
theorem c9_null_text_layout_row (f : FormState) (text : QStringM) (l : Nat) :
    (Row.ofTextLayout none (some l)).m_labelText = some "" ∧
    ((f.addRow (Row.ofTextLayout text (some l))).calls =
      f.calls ++ [QtCall.addRowTextField (text.getD "") l true]) ∧
    (f.addRow (Row.ofTextLayout text (some l))).calls ≠
      f.calls ++ [QtCall.addRowFieldOnly l true] := by
  refine ⟨rfl, ?_, ?_⟩
  · cases text <;> simp [FormState.addRow, Row.ofTextLayout]
  · cases text <;> simp [FormState.addRow, Row.ofTextLayout]

/-- C10: the Translator's event filter emits languageChanged exactly
when the watched object is the application object and the event is a
language-change event, and its return value is always false, so no event
is ever consumed. -/
theorem c10_event_filter_behaviour (qAppPtr watched : Nat) (et : QEventType) :
    ((Translator.eventFilter qAppPtr watched et).emittedLanguageChanged = true ↔
      (watched = qAppPtr ∧ et = QEventType.languageChange)) ∧
    (Translator.eventFilter qAppPtr watched et).consumed = false := by
  constructor
  · simp [Translator.eventFilter]
  · rfl

end QtUtils
